import Mathlib

/-!
Shallow embedding of the telemetry / data-management core of the
Business_AI_Agentic_Pharma_MVP repository, together with proofs that
settle the frozen claims about it.

The embedding translates, from the JavaScript source:
- the MQTT `OEEDataSource` (message handler, exponential-backoff
  reconnection, connection status) from `src/unnamed/part_002` and the
  identical variant in `src/data/sources/DataManager copy.js`;
- the `DataManager` cache layer (`loadDataType`, `getCachedData`),
  the order/telemetry join `getOrdersWithOEE`, and the realtime filter
  `getRealtimeOEEData`;
- the persistence pair `saveOEE` (src/utils/fileStore.js) and
  `DataManager.loadOEEHistory`;
- the mock-history generator `generateMockOEEHistory` and its wrapper
  `getOEEHistoryForAPI`;
- the OEE metric computation of `OEESimulator.publishOEE`;
- the fetch/timeout behaviour of the SAP and REST data sources in both
  `DataManager.js` (plain `fetch` with an ignored `timeout` option) and
  `DataManager copy.js` (AbortController-based timeout).

JavaScript `Map` objects are modelled as insertion-ordered association
lists, numbers as `Int`/`Nat`/`ℚ` (floating point is approximated by
exact rationals; the claims under study only involve exactly
representable values), JSON values by the inductive `JSVal`, and the
file system by an association list from path to parsed content.
Randomness, trigonometry and the wall clock are passed in as explicit
parameters where the source uses `Math.random` / `Math.sin` / `Date.now`.
-/

/-- JSON-like value as stored in the DataManager cache.  `vNull` stands
for both JS `null` and `undefined` where the distinction is irrelevant. -/
inductive JSVal where
  | vNull
  | vBool (b : Bool)
  | vNum (n : Int)
  | vStr (s : String)
  | vArr (xs : List JSVal)

/-- `v === null` (here `vNull` also covers `undefined`, which the cache
never stores). -/
def JSVal.isNull : JSVal → Bool
  | .vNull => true
  | _ => false

/-- JavaScript truthiness for `JSVal` (arrays are always truthy). -/
def JSVal.truthy : JSVal → Bool
  | .vNull => false
  | .vBool b => b
  | .vNum n => n != 0
  | .vStr s => s != ""
  | .vArr _ => true

/-- `Map.set`: replace in place if the key exists (JS Maps keep the
original insertion position on overwrite), otherwise append. -/
def setEntry {α : Type} (m : List (String × α)) (k : String) (v : α) :
    List (String × α) :=
  if m.any (fun p => p.1 == k) then
    m.map (fun p => if p.1 == k then (k, v) else p)
  else m ++ [(k, v)]

/-- `Map.get`: first entry with the given key, if any. -/
def getEntry {α : Type} (m : List (String × α)) (k : String) : Option α :=
  (m.find? (fun p => p.1 == k)).map (·.2)

/-- `Map.has`. -/
def hasEntry {α : Type} (m : List (String × α)) (k : String) : Bool :=
  m.any (fun p => p.1 == k)

/-!
## OEEDataSource: MQTT message handler (part_002 lines 80-120,
DataManager copy.js lines 480-517)
-/

/-- An inbound MQTT payload after JSON parsing.  `line` is `""` when the
`line` field is missing or empty (both falsy in JS); `hasMetrics` mirrors
the truthiness of `payload.metrics`; `timestamp` is the parsed epoch
milliseconds of `payload.timestamp` when present (and truthy). -/
structure OEEPayload where
  line : String
  hasMetrics : Bool
  timestamp : Option Int
  deriving DecidableEq

/-- The enriched payload stored in the per-line map: the original payload
plus `receivedAt` (epoch ms of `new Date()` at receipt; `none` models
legacy entries that predate the enrichment) and `dataAge`
(`Math.round(dataAge / 1000)` seconds). -/
structure StoredSample where
  payload : OEEPayload
  receivedAt : Option Int
  dataAge : Int
  deriving DecidableEq

/-- Staleness threshold used by the message handler: 300000 ms = 5 min. -/
def stalenessThresholdMs : Int := 300000

/-- `Math.round (ms / 1000)`: floor of `ms/1000 + 1/2` using flooring
integer division (JS rounds half toward positive infinity). -/
def jsRoundDiv1000 (ms : Int) : Int := Int.fdiv (2 * ms + 1000) 2000

/-- The `message` event handler of `OEEDataSource`: validates
`payload.line && payload.metrics`, computes
`dataAge = payload.timestamp ? Date.now() - timestamp : 0`, stores the
enriched payload only when `dataAge < 300000`, otherwise leaves the map
unchanged.  `now` is `Date.now()`. -/
def handleMessage (now : Int) (data : List (String × StoredSample))
    (p : OEEPayload) : List (String × StoredSample) :=
  if p.line != "" && p.hasMetrics then
    let dataAge : Int :=
      match p.timestamp with
      | some ts => now - ts
      | none => 0
    if dataAge < stalenessThresholdMs then
      setEntry data p.line
        { payload := p, receivedAt := some now,
          dataAge := jsRoundDiv1000 dataAge }
    else data
  else data

/-- `OEEDataSource.fetchData`: `Array.from(this.data.values())`. -/
def oeeFetchData (data : List (String × StoredSample)) : List StoredSample :=
  data.map (·.2)

/-!
## OEEDataSource: reconnection (part_002 lines 44-78 and 147-195)
-/

/-- `this.maxReconnectAttempts = 10`. -/
def maxReconnectAttempts : Nat := 10

/-- `this.reconnectDelay = 5000` (ms). -/
def baseReconnectDelay : Nat := 5000

/-- The mutable connection-related fields of `OEEDataSource`:
`reconnectAttempts`, the `isConnecting` guard flag, and the MQTT
client's `connected` flag (true between the `connect` and `close`
library events). -/
structure ReconnState where
  reconnectAttempts : Nat
  isConnecting : Bool
  connected : Bool
  deriving DecidableEq

/-- `scheduleReconnect`: gives up (schedules nothing) once
`reconnectAttempts >= maxReconnectAttempts`; otherwise increments the
counter and schedules a retry after
`min(reconnectDelay * 2^(attempts-1), 60000)` ms.  Returns the new state
and the scheduled delay, `none` when no retry is scheduled. -/
def scheduleReconnect (s : ReconnState) : ReconnState × Option Nat :=
  if s.reconnectAttempts ≥ maxReconnectAttempts then (s, none)
  else
    let attempts := s.reconnectAttempts + 1
    let delay := min (baseReconnectDelay * 2 ^ (attempts - 1)) 60000
    ({ s with reconnectAttempts := attempts }, some delay)

/-- The events that drive the connection-related state of
`OEEDataSource`: an invocation of `connect()` (initial call or the
reconnect timer firing), the library events `connect` (successful
broker handshake), `error`, `close`, `offline` and `disconnect`. -/
inductive MqttEvent where
  | connectCall
  | connectOk
  | errorEv
  | closeEv
  | offlineEv
  | disconnectEv
  deriving DecidableEq

/-- One step of the connection state machine, returning the new state
and the reconnect delay scheduled by this step (if any):
- `connectCall`: returns early (state unchanged) when `isConnecting` is
  already set, otherwise sets the guard flag;
- `connectOk`: resets `reconnectAttempts` to 0, clears the guard,
  client is now connected;
- `errorEv` / `disconnectEv`: clear the guard;
- `offlineEv`: clears the guard, client no longer connected;
- `closeEv`: clears the guard, client no longer connected, then runs
  `scheduleReconnect`. -/
def mqttStep (s : ReconnState) : MqttEvent → ReconnState × Option Nat
  | .connectCall =>
    if s.isConnecting then (s, none)
    else ({ s with isConnecting := true }, none)
  | .connectOk =>
    ({ reconnectAttempts := 0, isConnecting := false, connected := true }, none)
  | .errorEv => ({ s with isConnecting := false }, none)
  | .disconnectEv => ({ s with isConnecting := false }, none)
  | .offlineEv => ({ s with isConnecting := false, connected := false }, none)
  | .closeEv =>
    scheduleReconnect { s with isConnecting := false, connected := false }

/-- Run a sequence of events, collecting every scheduled reconnect
delay in order. -/
def runEvents (s : ReconnState) : List MqttEvent → ReconnState × List Nat
  | [] => (s, [])
  | e :: es =>
    let step1 := mqttStep s e
    let rest := runEvents step1.1 es
    (rest.1, step1.2.toList ++ rest.2)

/-- `getConnectionStatus` as far as the connection state is concerned:
`{ connected: this.client?.connected || false, reconnectAttempts, ... }`
(the `dataPoints` and `brokerUrl` fields do not depend on `ReconnState`
and are passed through separately in the source). -/
def getConnectionStatus (s : ReconnState) : Bool × Nat :=
  (s.connected, s.reconnectAttempts)

/-!
## DataManager.getRealtimeOEEData (DataManager copy.js lines 897-919)
-/

/-- Freshness window of `getRealtimeOEEData`: 600000 ms = 10 min. -/
def realtimeFreshnessMs : Int := 600000

/-- `DataManager.getRealtimeOEEData`: returns `[]` unless the `oee`
source exists with its map (`sourceAvailable`) and its client is
connected; otherwise returns the stored samples whose `receivedAt` is
less than 10 minutes old, keeping entries that lack `receivedAt`. -/
def getRealtimeOEEData (now : Int) (sourceAvailable connected : Bool)
    (data : List (String × StoredSample)) : List StoredSample :=
  if sourceAvailable && connected then
    (data.map (·.2)).filter (fun item =>
      match item.receivedAt with
      | none => true
      | some r => now - r < realtimeFreshnessMs)
  else []

/-!
## DataManager cache layer (DataManager.js lines 609-635,
DataManager copy.js lines 790-816)
-/

/-- The cache-relevant state of a `DataManager`, instrumented with two
counters: how often `loadDataType` was entered and how often the
underlying source's `fetchData` was actually invoked. -/
structure CacheState where
  dataCache : List (String × JSVal)
  loadCalls : Nat
  fetchCalls : Nat

/-- `DataManager.loadDataType`: throws when no source configuration or
no data source exists for the key (modelled together by `configured`);
otherwise invokes the source's `fetchData` (modelled by the environment
function `fetch`) and caches the result when it is not `null`. -/
def loadDataType (configured : String → Bool) (fetchRes : String → JSVal)
    (dataType : String) (s : CacheState) : Except String (JSVal × CacheState) :=
  let s₀ := { s with loadCalls := s.loadCalls + 1 }
  if configured dataType then
    let d := fetchRes dataType
    let s₁ := { s₀ with fetchCalls := s₀.fetchCalls + 1 }
    if !d.isNull then
      .ok (d, { s₁ with dataCache := setEntry s₁.dataCache dataType d })
    else .ok (d, s₁)
  else .error "No source configuration for data type"

/-- `this.dataCache.get(dataType) || null`: a missing or falsy stored
value comes back as `null`. -/
def jsGetOrNull (cache : List (String × JSVal)) (k : String) : JSVal :=
  match getEntry cache k with
  | some v => if v.truthy then v else JSVal.vNull
  | none => JSVal.vNull

/-- `DataManager.getCachedData`: reload via `loadDataType` when
`forceRefresh` is set or no cache entry exists, then return
`dataCache.get(dataType) || null`. -/
def getCachedData (configured : String → Bool) (fetchRes : String → JSVal)
    (dataType : String) (forceRefresh : Bool) (s : CacheState) :
    Except String (JSVal × CacheState) :=
  if forceRefresh || !hasEntry s.dataCache dataType then
    match loadDataType configured fetchRes dataType s with
    | .error e => .error e
    | .ok (_, s') => .ok (jsGetOrNull s'.dataCache dataType, s')
  else .ok (jsGetOrNull s.dataCache dataType, s)

/-!
## DataManager.getOrdersWithOEE (DataManager.js lines 686-709,
DataManager copy.js lines 867-890)
-/

/-- One operation of a production order; `workCenter` is `none` when
the field is absent and the stored string may be empty (both falsy). -/
structure Operation where
  workCenter : Option String
  deriving DecidableEq

/-- A production order: an identity (standing for all its other
fields, which are spread unchanged into the output) and the optional
`operations` array. -/
structure Order where
  id : String
  operations : Option (List Operation)
  deriving DecidableEq

/-- `op.workCenter` as a truthiness test. -/
def opHasWorkCenter (op : Operation) : Bool :=
  match op.workCenter with
  | some s => s != ""
  | none => false

/-- A telemetry record as held in the `oee` cache entry: its `line`
plus an abstract rest. -/
structure OEERecordJoin where
  line : String
  rest : String
  deriving DecidableEq

/-- The `oee` field of an enriched order: either the matched telemetry
record or the literal placeholder object
with status "no-data" and empty metrics. -/
inductive OEESlot where
  | matched (r : OEERecordJoin)
  | noData
  deriving DecidableEq

/-- An output row of `getOrdersWithOEE`: the spread original order, the
extracted `workCenter`, and the `oee` slot. -/
structure EnrichedOrder where
  order : Order
  workCenter : String
  oee : OEESlot
  deriving DecidableEq

/-- `DataManager.getOrdersWithOEE` (after both caches are read): for
each order, the work center is that of the first operation with a
truthy `workCenter` (or `"UNKNOWN"`), joined against the first
telemetry record with a matching `line`; a missing match becomes the
no-data placeholder. -/
def getOrdersWithOEE (orders : List Order) (oeeData : List OEERecordJoin) :
    List EnrichedOrder :=
  orders.map (fun order =>
    let opWithWorkCenter := (order.operations.getD []).find? opHasWorkCenter
    let workCenter :=
      match opWithWorkCenter with
      | some op => op.workCenter.getD ""
      | none => "UNKNOWN"
    let oeeMatch := oeeData.find? (fun o => o.line == workCenter)
    { order := order, workCenter := workCenter,
      oee := match oeeMatch with
             | some r => OEESlot.matched r
             | none => OEESlot.noData })

/-!
## Persistence: saveOEE (src/utils/fileStore.js) and
DataManager.loadOEEHistory (DataManager copy.js lines 1174-1194)
-/

/-- `payload.counters` as persisted by `saveOEE`. -/
structure OEECounters where
  plannedProductionTime : Nat
  operatingTime : Nat
  goodCount : Nat
  badCount : Nat
  deriving DecidableEq

/-- `payload.metrics` (exact rationals in place of JS floats). -/
structure OEEMetrics where
  availability : ℚ
  performance : ℚ
  quality : ℚ
  oee : ℚ
  deriving DecidableEq

/-- `payload.parameters` as persisted by `saveOEE`. -/
structure OEEParameters where
  temperature : ℚ
  pressure : ℚ
  deriving DecidableEq

/-- The payload published by `OEESimulator.publishOEE` (the fields
`saveOEE` reads from it). -/
structure SimPayload where
  line : String
  status : String
  batchId : String
  counters : OEECounters
  metrics : OEEMetrics
  parameters : OEEParameters
  alarms : List String
  timestamp : String
  deriving DecidableEq

/-- The record `saveOEE` pushes onto the history array (same shape as
`SimPayload`; the `line` field comes from the `line` argument, the rest
from the payload). -/
def recordOfPayload (line : String) (p : SimPayload) : SimPayload :=
  { line := line, status := p.status, batchId := p.batchId,
    counters := p.counters, metrics := p.metrics,
    parameters := p.parameters, alarms := p.alarms,
    timestamp := p.timestamp }

/-- The file system, as paths mapped to the parsed JSON array the file
holds (`saveOEE` is the only writer in the repository, and it always
writes an array of records; `JSON.parse ∘ JSON.stringify` is modelled
as the identity). -/
def FileSys : Type := List (String × List SimPayload)

/-- The path `saveOEE` reads and rewrites:
`path.join(process.cwd(), "oee_history.json")`. -/
def saveOEEPath : String := "CWD/oee_history.json"

/-- The path `DataManager.loadOEEHistory` reads:
`path.join(process.cwd(), 'data', 'oee_history.json')`. -/
def loadOEEHistoryPath : String := "CWD/data/oee_history.json"

/-- `saveOEE(line, payload)`: read the existing file (or start from the
empty array), push the new record, rewrite the whole file. -/
def saveOEE (fsys : FileSys) (line : String) (p : SimPayload) : FileSys :=
  let history := (getEntry fsys saveOEEPath).getD []
  setEntry fsys saveOEEPath (history ++ [recordOfPayload line p])

/-- `DataManager.loadOEEHistory`: parse and return the content of
`CWD/data/oee_history.json` when that file exists, otherwise return the
empty object `{}` — modelled as the (empty) sequence of records the
result holds.  The `dataCache` side effect is not relevant to any claim
and is omitted. -/
def loadOEEHistory (fsys : FileSys) : List SimPayload :=
  match getEntry fsys loadOEEHistoryPath with
  | some historyData => historyData
  | none => []

/-!
## DataManager.getOEEHistoryForAPI / generateMockOEEHistory
(DataManager copy.js lines 1202-1296)
-/

/-- `Math.round(x * 100) / 100` (two-decimal rounding in the mock
generator). -/
def round2 (q : ℚ) : ℚ := ((round (q * 100) : ℤ) : ℚ) / 100

/-- An entry of the API-format OEE history (fields written by
`generateMockOEEHistory`). -/
structure MockOEERecord where
  timestamp : Int
  lineId : String
  lineName : String
  oee : ℚ
  availability : ℚ
  performance : ℚ
  quality : ℚ
  status : String
  eventType : String
  source : String
  batchId : String
  product : String
  shift : String
  operator : String
  deriving DecidableEq

/-- The sources of nondeterminism and environment dependence of the
mock generator: `noise i j` is the `j`-th `Math.random()` draw of
iteration `i` (a value in `[0,1)`); `sinv`/`cosv` stand for `Math.sin`
and `Math.cos`; `hoursOf ts` is `new Date(ts).getHours()` (local-time
dependent). -/
structure MockEnv where
  noise : Nat → Nat → ℚ
  sinv : ℚ → ℚ
  cosv : ℚ → ℚ
  hoursOf : Int → Nat

/-- `DataManager.getShift`: classify an epoch-ms timestamp into a shift
by its local hour. -/
def getShift (env : MockEnv) (timestamp : Int) : String :=
  let hour := env.hoursOf timestamp
  if 6 ≤ hour && hour < 14 then "Day Shift"
  else if 14 ≤ hour && hour < 22 then "Evening Shift"
  else "Night Shift"

/-- `DataManager.getRandomProduct` (draw `j = 6` of iteration `i`). -/
def getRandomProduct (env : MockEnv) (i : Nat) : String :=
  let products := ["Aspirin 500mg", "Ibuprofen 200mg", "Paracetamol 250mg",
    "Vitamin C 1000mg"]
  (products.get? (Int.toNat ⌊env.noise i 6 * 4⌋)).getD "undefined"

/-- `DataManager.getRandomOperator` (draw `j = 7` of iteration `i`). -/
def getRandomOperator (env : MockEnv) (i : Nat) : String :=
  let operators := ["Mueller_A", "Schmidt_B", "Weber_C", "Fischer_D",
    "Meyer_E"]
  (operators.get? (Int.toNat ⌊env.noise i 7 * 5⌋)).getD "undefined"

/-- `selectedLine.split('-')[1]` (used for the `lineName` field). -/
def secondDashField (s : String) : String :=
  ((s.splitOn "-").get? 1).getD "undefined"

/-- One iteration of the `generateMockOEEHistory` loop. -/
def mockRecord (env : MockEnv) (now : Int) (lines : List String) (i : Nat) :
    MockOEERecord :=
  let selectedLine := (lines.get? (i % lines.length)).getD "undefined"
  let minutesAgo : Int := i * 3
  let timeOffset : Int := now - minutesAgo * 60000
  let baseOEE : ℚ := 85 + env.sinv (i / 10) * 10
  let baseAvail : ℚ := 92 + env.sinv (i / 15) * 5
  let basePerf : ℚ := 88 + env.cosv (i / 12) * 8
  let baseQual : ℚ := 96 + env.sinv (i / 20) * 3
  { timestamp := timeOffset
    lineId := selectedLine
    lineName := "Production Line " ++ secondDashField selectedLine
    oee := round2 (baseOEE + (env.noise i 0 - 1/2) * 4)
    availability := round2 (baseAvail + (env.noise i 1 - 1/2) * 3)
    performance := round2 (basePerf + (env.noise i 2 - 1/2) * 5)
    quality := round2 (baseQual + (env.noise i 3 - 1/2) * 2)
    status := if env.noise i 4 > 9/10 then "maintenance" else "running"
    eventType := "oee_update"
    source := "mock_generator"
    batchId := "BATCH-" ++ toString (Int.toNat ⌊env.noise i 5 * 1000⌋)
    product := getRandomProduct env i
    shift := getShift env timeOffset
    operator := getRandomOperator env i }

/-- `DataManager.generateMockOEEHistory(limit, lineId)`: one record per
`i < limit`, finally sorted newest-first.  The generated timestamps are
already strictly decreasing in `i`, so the final
`sort((a, b) => b.timestamp - a.timestamp)` is modelled by a stable
merge sort on the same descending comparator. -/
def generateMockOEEHistory (env : MockEnv) (now : Int) (limit : Nat)
    (lineId : Option String) : List MockOEERecord :=
  let lines :=
    match lineId with
    | some l => [l]
    | none => ["LINE-01", "LINE-02", "LINE-03"]
  let history := (List.range limit).map (mockRecord env now lines)
  history.mergeSort (fun a b => b.timestamp ≤ a.timestamp)

/-- The conversion branch of `getOEEHistoryForAPI` for a non-empty
parsed history file.  The only writer of a history file in this
repository is `saveOEE`, which writes a flat ARRAY of records;
`Object.entries` over an array yields index-keyed single records, so
the `Array.isArray(entries)` guard fails for every entry and the
conversion loop pushes nothing. -/
def convertSimFileHistory (_historyData : List SimPayload) (_limit : Nat)
    (_lineId : Option String) : List MockOEERecord := []

/-- `DataManager.getOEEHistoryForAPI(limit, lineId)`: load the history
file; when it is missing or empty fall back to
`generateMockOEEHistory`, otherwise convert the parsed file. -/
def getOEEHistoryForAPI (env : MockEnv) (fsys : FileSys) (now : Int)
    (limit : Nat) (lineId : Option String) : List MockOEERecord :=
  let historyData := loadOEEHistory fsys
  if historyData.isEmpty then generateMockOEEHistory env now limit lineId
  else convertSimFileHistory historyData limit lineId

/-!
## OEESimulator.publishOEE: metric computation
(src/simulator/OEESimulator.js lines 120-156)
-/

/-- The per-line counters of the simulator at publish time
(`idealCycleTime` is initialised to 1 and never changed). -/
structure SimCounters where
  plannedProductionTime : Nat
  operatingTime : Nat
  goodCount : Nat
  badCount : Nat
  idealCycleTime : ℚ
  deriving DecidableEq

/-- `availability = operatingTime / plannedProductionTime` (0 when no
planned time). -/
def availabilityOf (d : SimCounters) : ℚ :=
  if d.plannedProductionTime > 0 then
    (d.operatingTime : ℚ) / d.plannedProductionTime
  else 0

/-- `performance = (good + bad) / (operatingTime * (1 / idealCycleTime))`
(0 when no operating time). -/
def performanceOf (d : SimCounters) : ℚ :=
  if d.operatingTime > 0 then
    ((d.goodCount : ℚ) + d.badCount) /
      ((d.operatingTime : ℚ) * (1 / d.idealCycleTime))
  else 0

/-- `cappedPerformance = Math.min(performance, 1.0)`. -/
def cappedPerformanceOf (d : SimCounters) : ℚ := min (performanceOf d) 1

/-- `quality = goodCount / (goodCount + badCount)` (0 when no parts). -/
def qualityOf (d : SimCounters) : ℚ :=
  if d.goodCount + d.badCount > 0 then
    (d.goodCount : ℚ) / ((d.goodCount : ℚ) + d.badCount)
  else 0

/-- `oee = availability * cappedPerformance * quality * 100`. -/
def oeeOf (d : SimCounters) : ℚ :=
  availabilityOf d * cappedPerformanceOf d * qualityOf d * 100

/-- `parseFloat(x.toFixed(2))` on the exact rational value. -/
def toFixed2 (q : ℚ) : ℚ := round2 q

/-- The `metrics` object of the published payload: the three component
percentages (note: the published `performance` is the UNCAPPED value)
and the `oee`, each rounded to two decimals. -/
def publishedMetricsOf (d : SimCounters) : OEEMetrics :=
  { availability := toFixed2 (availabilityOf d * 100)
    performance := toFixed2 (performanceOf d * 100)
    quality := toFixed2 (qualityOf d * 100)
    oee := toFixed2 (oeeOf d) }

/-!
## SAP / REST fetch timeout behaviour
(DataManager copy.js lines 192-236 and 356-386, DataManager.js
lines 180-211 and 330-353)
-/

/-- Outcome of a fetch call: resolved data or a thrown error message. -/
inductive FetchOutcome where
  | ok (data : String)
  | err (msg : String)
  deriving DecidableEq

/-- The relevant behaviour of one HTTP exchange: when (in ms) the
response arrives, if ever, and whether `response.ok` holds then. -/
structure Upstream where
  respondsAt : Option Nat
  respOk : Bool
  status : String
  body : String

/-- `SAPDataSource.fetchData` of `DataManager copy.js`: an
`AbortController` is aborted by a timer after `timeout` ms; an abort
surfaces as `AbortError` which the catch block converts into the
distinct error `"SAP API timeout after <timeout>ms"`; a response that
arrives in time yields the data or the generic
`"SAP API error: <status>"`. -/
def sapFetchWithAbort (timeout : Nat) (u : Upstream) : FetchOutcome :=
  match u.respondsAt with
  | some t =>
    if t < timeout then
      if u.respOk then .ok u.body else .err ("SAP API error: " ++ u.status)
    else .err ("SAP API timeout after " ++ toString timeout ++ "ms")
  | none => .err ("SAP API timeout after " ++ toString timeout ++ "ms")

/-- `RestAPIDataSource.fetchData` of `DataManager copy.js`: same
structure with the distinct error `"REST API timeout after <timeout>ms"`
and the generic `"REST API error: <status>"`. -/
def restFetchWithAbort (timeout : Nat) (u : Upstream) : FetchOutcome :=
  match u.respondsAt with
  | some t =>
    if t < timeout then
      if u.respOk then .ok u.body else .err ("REST API error: " ++ u.status)
    else .err ("REST API timeout after " ++ toString timeout ++ "ms")
  | none => .err ("REST API timeout after " ++ toString timeout ++ "ms")

/-- `SAPDataSource.fetchData` of `DataManager.js`: the configured
`this.timeout` is passed as a `timeout:` option to the WHATWG `fetch`
API, which has no such option and ignores it; no `AbortController` is
used, so nothing ever interrupts the request.  The call resolves only
when the upstream responds; `none` means the call never settles. -/
def sapFetchMain (_timeout : Nat) (u : Upstream) : Option FetchOutcome :=
  match u.respondsAt with
  | some _ =>
    some (if u.respOk then .ok u.body else .err ("SAP API error: " ++ u.status))
  | none => none

/-- `RestAPIDataSource.fetchData` of `DataManager.js`: same ignored
`timeout:` option, no abort path. -/
def restFetchMain (_timeout : Nat) (u : Upstream) : Option FetchOutcome :=
  match u.respondsAt with
  | some _ =>
    some (if u.respOk then .ok u.body
          else .err ("REST API error: " ++ u.status))
  | none => none

/-!
## Claim theorems
-/

/-- C1: a telemetry message whose sample age `now - timestamp` exceeds
the 5-minute staleness threshold is dropped: the per-line map is
unchanged, so a subsequent `fetchData()` returns exactly what it
returned before the message. -/
theorem stale_sample_dropped (now : Int) (data : List (String × StoredSample))
    (p : OEEPayload) (ts : Int) (hts : p.timestamp = some ts)
    (hage : now - ts > stalenessThresholdMs) :
    handleMessage now data p = data ∧
    oeeFetchData (handleMessage now data p) = oeeFetchData data := by
  have hdrop : handleMessage now data p = data := by
    unfold handleMessage
    rw [hts]
    have hnlt : ¬ ((now - ts) < stalenessThresholdMs) := by
      unfold stalenessThresholdMs at hage ⊢
      omega
    simp [hnlt]
  exact ⟨hdrop, by rw [hdrop]⟩

/-- Witness for C1: a sample stamped at epoch 0 arriving at epoch
1000000 (age well beyond 5 minutes) leaves an empty map empty. -/
theorem stale_sample_dropped_witness :
    ((1000000 : Int) - 0 > stalenessThresholdMs) ∧
    handleMessage 1000000 [] ⟨"LINE-01", true, some 0⟩ = [] :=
  ⟨by decide,
   (stale_sample_dropped 1000000 [] ⟨"LINE-01", true, some 0⟩ 0 rfl
      (by decide)).1⟩

/-- C2: for every attempt number `n` with `1 ≤ n ≤ 10`,
`scheduleReconnect` called with counter `n - 1` schedules a retry after
`min(5000 * 2^(n-1), 60000)` ms; consecutive scheduled delays are
non-decreasing; the first three delays are 5000, 10000 and 20000 ms. -/
theorem reconnect_backoff_delay (n : Nat) (h1 : 1 ≤ n)
    (h2 : n ≤ maxReconnectAttempts) (c b : Bool) :
    (scheduleReconnect ⟨n - 1, c, b⟩).2 =
      some (min (baseReconnectDelay * 2 ^ (n - 1)) 60000) ∧
    (∀ m : Nat, 1 ≤ m → m < maxReconnectAttempts → ∀ d₁ d₂ : Nat,
      (scheduleReconnect ⟨m - 1, c, b⟩).2 = some d₁ →
      (scheduleReconnect ⟨m, c, b⟩).2 = some d₂ → d₁ ≤ d₂) ∧
    (scheduleReconnect ⟨0, false, false⟩).2 = some 5000 ∧
    (scheduleReconnect ⟨1, false, false⟩).2 = some 10000 ∧
    (scheduleReconnect ⟨2, false, false⟩).2 = some 20000 := by
  have hval : ∀ k : Nat, k < maxReconnectAttempts → ∀ c' b' : Bool,
      (scheduleReconnect ⟨k, c', b'⟩).2 =
        some (min (baseReconnectDelay * 2 ^ k) 60000) := by
    intro k hk c' b'
    unfold scheduleReconnect
    have : ¬ ((⟨k, c', b'⟩ : ReconnState).reconnectAttempts ≥
        maxReconnectAttempts) := by simpa using Nat.not_le.mpr hk
    simp [this]
  refine ⟨?_, ?_, ?_, ?_, ?_⟩
  · have hk : n - 1 < maxReconnectAttempts := by
      unfold maxReconnectAttempts at h2 ⊢; omega
    exact hval (n - 1) hk c b
  · intro m hm1 hm2 d₁ d₂ hd₁ hd₂
    have e₁ := hval (m - 1) (by omega) c b
    have e₂ := hval m hm2 c b
    rw [e₁] at hd₁
    rw [e₂] at hd₂
    have hd₁' := Option.some.inj hd₁
    have hd₂' := Option.some.inj hd₂
    subst hd₁' hd₂'
    refine min_le_min ?_ le_rfl
    exact Nat.mul_le_mul_left _
      (Nat.pow_le_pow_right (by norm_num) (by omega))
  · decide
  · decide
  · decide

/-- Witness for C2: attempt 5 from counter 4 schedules
`min(5000 * 2^4, 60000) = 60000` ms. -/
theorem reconnect_backoff_delay_witness :
    (scheduleReconnect ⟨4, false, true⟩).2 =
      some (min (baseReconnectDelay * 2 ^ 4) 60000) :=
  (reconnect_backoff_delay 5 (by decide) (by decide) false true).1

/-- C3: `getOrdersWithOEE` produces exactly one output row per input
order, in order, dropping and duplicating nothing; a row whose work
center matches no telemetry line carries the no-data placeholder. -/
theorem orders_join_total (orders : List Order)
    (oeeData : List OEERecordJoin) :
    (getOrdersWithOEE orders oeeData).length = orders.length ∧
    (getOrdersWithOEE orders oeeData).map (·.order) = orders ∧
    ∀ e ∈ getOrdersWithOEE orders oeeData,
      (∀ r ∈ oeeData, r.line ≠ e.workCenter) → e.oee = OEESlot.noData := by
  refine ⟨by simp [getOrdersWithOEE], ?_, ?_⟩
  · induction orders with
    | nil => rfl
    | cons o os ih => simpa [getOrdersWithOEE] using ih
  intro e he hnone
  simp only [getOrdersWithOEE, List.mem_map] at he
  obtain ⟨order, -, rfl⟩ := he
  simp only at hnone ⊢
  have hfind : oeeData.find? (fun o => o.line ==
      (match (order.operations.getD []).find? opHasWorkCenter with
       | some op => op.workCenter.getD ""
       | none => "UNKNOWN")) = none := by
    rw [List.find?_eq_none]
    intro r hr
    simpa using hnone r hr
  simp [hfind]

/-- Witness for C3: one order whose work center "LINE-09" matches no
telemetry line gets the placeholder slot. -/
theorem orders_join_total_witness :
    ({ order := ⟨"ORD-1", some [⟨some "LINE-09"⟩]⟩,
       workCenter := "LINE-09", oee := OEESlot.noData } : EnrichedOrder).oee =
      OEESlot.noData :=
  (orders_join_total [⟨"ORD-1", some [⟨some "LINE-09"⟩]⟩]
      [⟨"LINE-01", "telemetry"⟩]).2.2 _ (by decide) (by decide)

/-- A key found by `getEntry` is reported by `hasEntry`. -/
theorem hasEntry_of_getEntry {α : Type} {m : List (String × α)} {k : String}
    {v : α} (h : getEntry m k = some v) : hasEntry m k = true := by
  unfold getEntry at h
  unfold hasEntry
  obtain ⟨p, hp, hk⟩ : ∃ p ∈ m, (p.1 == k) = true := by
    cases hfind : m.find? (fun p => p.1 == k) with
    | none => rw [hfind] at h; cases h
    | some p =>
      refine ⟨p, List.mem_of_find?_eq_some hfind, ?_⟩
      have hpred := List.find?_some hfind
      simpa using hpred
  exact List.any_eq_true.mpr ⟨p, hp, hk⟩

/-- C4 (amended): with `forceRefresh = true`, `getCachedData` always
enters `loadDataType`, and whenever a source is configured for the key
it invokes that source's `fetchData` exactly once, regardless of the
prior cache state; with `forceRefresh = false` and an existing cache
entry it performs no load and no fetch, and returns the stored value
when that value is truthy (a falsy stored value comes back as `null`
because of the `|| null` coalescing). -/
theorem getCachedData_semantics (configured : String → Bool)
    (fetchRes : String → JSVal) (dataType : String) (s : CacheState) :
    (configured dataType = true →
      ∃ v s', getCachedData configured fetchRes dataType true s =
          .ok (v, s') ∧
        s'.fetchCalls = s.fetchCalls + 1 ∧
        s'.loadCalls = s.loadCalls + 1) ∧
    (hasEntry s.dataCache dataType = true →
      getCachedData configured fetchRes dataType false s =
        .ok (jsGetOrNull s.dataCache dataType, s)) ∧
    (∀ v, getEntry s.dataCache dataType = some v → v.truthy = true →
      getCachedData configured fetchRes dataType false s = .ok (v, s)) := by
  refine ⟨?_, ?_, ?_⟩
  · intro hconf
    by_cases hnull : (fetchRes dataType).isNull
    · exact ⟨jsGetOrNull s.dataCache dataType,
        ⟨s.dataCache, s.loadCalls + 1, s.fetchCalls + 1⟩,
        by simp [getCachedData, loadDataType, hconf, hnull], rfl, rfl⟩
    · exact ⟨jsGetOrNull
          (setEntry s.dataCache dataType (fetchRes dataType)) dataType,
        ⟨setEntry s.dataCache dataType (fetchRes dataType),
          s.loadCalls + 1, s.fetchCalls + 1⟩,
        by simp [getCachedData, loadDataType, hconf, hnull], rfl, rfl⟩
  · intro hhas
    unfold getCachedData
    simp [hhas]
  · intro v hv htruthy
    have hhas := hasEntry_of_getEntry hv
    unfold getCachedData
    simp [hhas, jsGetOrNull, hv, htruthy]

/-- Witness for C4 (amended): a cached truthy value is returned as is,
with no load and no fetch. -/
theorem getCachedData_semantics_witness :
    getCachedData (fun _ => true) (fun _ => JSVal.vNum 7) "orders" false
      ⟨[("orders", JSVal.vNum 5)], 0, 0⟩ =
      .ok (JSVal.vNum 5, ⟨[("orders", JSVal.vNum 5)], 0, 0⟩) :=
  (getCachedData_semantics (fun _ => true) (fun _ => JSVal.vNum 7) "orders"
      ⟨[("orders", JSVal.vNum 5)], 0, 0⟩).2.2 (JSVal.vNum 5) rfl rfl

/-- Counterexample to C4 as stated: with the falsy value `0` stored
under "x", `getCachedData("x", false)` does NOT return the stored
value — the `dataCache.get(dataType) || null` coalescing turns it into
`null` (no fetch happens either way). -/
theorem getCachedData_falsy_counterexample :
    getEntry ([("x", JSVal.vNum 0)] : List (String × JSVal)) "x" =
      some (JSVal.vNum 0) ∧
    getCachedData (fun _ => true) (fun _ => JSVal.vArr []) "x" false
      ⟨[("x", JSVal.vNum 0)], 0, 0⟩ =
      .ok (JSVal.vNull, ⟨[("x", JSVal.vNum 0)], 0, 0⟩) ∧
    JSVal.vNull ≠ JSVal.vNum 0 :=
  ⟨rfl, rfl, fun h => JSVal.noConfusion h⟩

/-- A concrete simulator payload used as failing input. -/
def samplePayload : SimPayload :=
  { line := "LINE-01", status := "running", batchId := "BATCH-100",
    counters := ⟨1, 1, 1, 0⟩, metrics := ⟨100, 50, 90, 45⟩,
    parameters := ⟨21, 1⟩, alarms := [],
    timestamp := "2024-01-01T00:00:00.000Z" }

/-- C5 evaluated at the failing input: `saveOEE` durably appends the
record under `CWD/oee_history.json`, but `loadOEEHistory` reads the
distinct path `CWD/data/oee_history.json` and therefore reproduces the
empty sequence instead of the appended one. -/
theorem persistence_path_mismatch_eval :
    saveOEEPath ≠ loadOEEHistoryPath ∧
    getEntry (saveOEE [] "LINE-01" samplePayload) saveOEEPath =
      some [recordOfPayload "LINE-01" samplePayload] ∧
    loadOEEHistory (saveOEE [] "LINE-01" samplePayload) = [] :=
  ⟨by decide, rfl, rfl⟩

/-- C6 (amended): when no history file exists at the path
`loadOEEHistory` reads, `getOEEHistoryForAPI` does not fail: for any
positive `limit` it returns a non-empty generated series, every record
of which carries `source = "mock_generator"` (not `"synthetic"`). -/
theorem absent_history_mock_tagged (env : MockEnv) (fsys : FileSys)
    (now : Int) (limit : Nat) (lineId : Option String)
    (habs : getEntry fsys loadOEEHistoryPath = none) (hpos : 0 < limit) :
    getOEEHistoryForAPI env fsys now limit lineId ≠ [] ∧
    ∀ r ∈ getOEEHistoryForAPI env fsys now limit lineId,
      r.source = "mock_generator" := by
  have hload : loadOEEHistory fsys = [] := by
    unfold loadOEEHistory
    rw [habs]
  have hgen : getOEEHistoryForAPI env fsys now limit lineId =
      generateMockOEEHistory env now limit lineId := by
    unfold getOEEHistoryForAPI
    rw [hload]
    rfl
  rw [hgen]
  constructor
  · intro hnil
    have hlen := congrArg List.length hnil
    simp [generateMockOEEHistory] at hlen
    omega
  · intro r hr
    simp only [generateMockOEEHistory, List.mem_mergeSort,
      List.mem_map] at hr
    obtain ⟨i, -, rfl⟩ := hr
    rfl

/-- A fully deterministic mock environment (all randomness and
trigonometry pinned to 0). -/
def mockEnvZero : MockEnv :=
  { noise := fun _ _ => 0, sinv := fun _ => 0, cosv := fun _ => 0,
    hoursOf := fun _ => 0 }

/-- Witness for C6 (amended): with an empty file system and one
requested record, the generated series is non-empty. -/
theorem absent_history_mock_tagged_witness :
    getOEEHistoryForAPI mockEnvZero [] 0 1 none ≠ [] :=
  (absent_history_mock_tagged mockEnvZero [] 0 1 none rfl (by decide)).1

/-- Counterexample to C6 as stated: at the concrete absent-file input,
the one generated record is tagged `"mock_generator"`, which differs
from the claimed `"synthetic"` tag. -/
theorem absent_history_not_synthetic_counterexample :
    (getOEEHistoryForAPI mockEnvZero [] 0 1 none).map (·.source) =
      ["mock_generator"] ∧ "mock_generator" ≠ "synthetic" := by
  constructor
  · have h1 : getOEEHistoryForAPI mockEnvZero [] 0 1 none =
        [mockRecord mockEnvZero 0 ["LINE-01", "LINE-02", "LINE-03"] 0] := by
      unfold getOEEHistoryForAPI loadOEEHistory generateMockOEEHistory
      simp [List.range_succ, getEntry]
    rw [h1]
    rfl
  · decide

/-- Rounding an integer-valued rational to two decimals is the
identity. -/
theorem round2_intValued (n : ℤ) : round2 ((n : ℚ)) = n := by
  unfold round2
  have : ((n : ℚ)) * 100 = ((n * 100 : ℤ) : ℚ) := by push_cast; ring
  rw [this, round_intCast]
  push_cast
  field_simp

/-- C7: the simulator's published `oee` is
`availability × min(performance, 1) × quality × 100` (components as
fractions of 1, result in percent, with performance capped before the
multiplication); whenever the component percentages are exactly 100, 50
and 90, the published `oee` is exactly 45. -/
theorem published_oee_capped_product (d : SimCounters) :
    oeeOf d = availabilityOf d * min (performanceOf d) 1 * qualityOf d * 100 ∧
    (availabilityOf d * 100 = 100 → performanceOf d * 100 = 50 →
      qualityOf d * 100 = 90 → (publishedMetricsOf d).oee = 45) := by
  refine ⟨rfl, ?_⟩
  intro ha hp hq
  have ha' : availabilityOf d = 1 := by linarith
  have hp' : performanceOf d = 1 / 2 := by linarith
  have hq' : qualityOf d = 9 / 10 := by linarith
  have hmin : min (performanceOf d) 1 = 1 / 2 := by
    rw [hp']
    norm_num
  have hoee : oeeOf d = 45 := by
    unfold oeeOf cappedPerformanceOf
    rw [ha', hmin, hq']
    norm_num
  show toFixed2 (oeeOf d) = 45
  rw [hoee]
  have h45 := round2_intValued 45
  unfold toFixed2
  simpa using h45

/-- Witness for C7: counters planned=20, operating=20, good=9, bad=1
(ideal cycle time 1) give exactly availability 100 %, performance 50 %,
quality 90 % and published oee 45. -/
theorem published_oee_capped_product_witness :
    (publishedMetricsOf ⟨20, 20, 9, 1, 1⟩).oee = 45 :=
  (published_oee_capped_product ⟨20, 20, 9, 1, 1⟩).2
    (by unfold availabilityOf; norm_num)
    (by unfold performanceOf; norm_num)
    (by unfold qualityOf; norm_num)

/-- One non-`connectOk` step: the attempt counter plus the number of
delays this step schedules is bounded by the new counter, and the
counter stays within the configured maximum. -/
theorem mqttStep_progress (s : ReconnState) (e : MqttEvent)
    (hne : e ≠ MqttEvent.connectOk)
    (hmax : s.reconnectAttempts ≤ maxReconnectAttempts) :
    s.reconnectAttempts + (mqttStep s e).2.toList.length ≤
      (mqttStep s e).1.reconnectAttempts ∧
    (mqttStep s e).1.reconnectAttempts ≤ maxReconnectAttempts := by
  cases e with
  | connectOk => exact absurd rfl hne
  | connectCall =>
    by_cases hc : s.isConnecting <;> simp [mqttStep, hc, hmax]
  | errorEv => simp [mqttStep, hmax]
  | offlineEv => simp [mqttStep, hmax]
  | disconnectEv => simp [mqttStep, hmax]
  | closeEv =>
    unfold mqttStep scheduleReconnect
    by_cases hge : s.reconnectAttempts ≥ maxReconnectAttempts
    · simp [hge, hmax]
    · simp only [maxReconnectAttempts] at hge hmax ⊢
      simp [hge]
      omega

/-- Along any event trace without a successful connect, the initial
attempt counter plus every reconnect ever scheduled stays within the
configured maximum. -/
theorem runEvents_sched_bound (es : List MqttEvent) :
    ∀ s : ReconnState, s.reconnectAttempts ≤ maxReconnectAttempts →
      MqttEvent.connectOk ∉ es →
      s.reconnectAttempts + (runEvents s es).2.length ≤
        maxReconnectAttempts := by
  induction es with
  | nil =>
    intro s h _
    simpa [runEvents] using h
  | cons e es ih =>
    intro s h hno
    have hne : e ≠ MqttEvent.connectOk := fun he => hno (by
      rw [he]; exact List.mem_cons_self _ _)
    have hno' : MqttEvent.connectOk ∉ es := fun hx =>
      hno (List.mem_cons_of_mem _ hx)
    obtain ⟨h1, h2⟩ := mqttStep_progress s e hne h
    have h3 := ih (mqttStep s e).1 h2 hno'
    have hlen : (runEvents s (e :: es)).2.length =
        (mqttStep s e).2.toList.length +
          (runEvents (mqttStep s e).1 es).2.length := by
      simp [runEvents]
    omega

/-- C8: without external intervention (no successful connect), at most
10 reconnection attempts are ever scheduled; once the counter is at the
maximum, a further `close` schedules nothing and the terminal state
(disconnected, counter at 10) is what `getConnectionStatus` reports; a
successful connect resets the counter to 0; and `connect()` while the
`isConnecting` guard is set leaves the state untouched. -/
theorem reconnect_attempts_bounded (s : ReconnState) :
    (∀ es : List MqttEvent, MqttEvent.connectOk ∉ es →
      s.reconnectAttempts ≤ maxReconnectAttempts →
      s.reconnectAttempts + (runEvents s es).2.length ≤
        maxReconnectAttempts) ∧
    (s.reconnectAttempts = maxReconnectAttempts →
      (mqttStep s MqttEvent.closeEv).2 = none ∧
      getConnectionStatus (mqttStep s MqttEvent.closeEv).1 =
        (false, maxReconnectAttempts)) ∧
    (mqttStep s MqttEvent.connectOk).1.reconnectAttempts = 0 ∧
    (s.isConnecting = true →
      mqttStep s MqttEvent.connectCall = (s, none)) := by
  refine ⟨?_, ?_, rfl, ?_⟩
  · intro es hno h
    exact runEvents_sched_bound es s h hno
  · intro hs
    unfold mqttStep scheduleReconnect getConnectionStatus
    simp [hs]
  · intro hc
    simp [mqttStep, hc]

/-- Witness for C8: from a fresh state, eleven consecutive connection
losses schedule at most ten reconnection attempts. -/
theorem reconnect_attempts_bounded_witness :
    (⟨0, false, false⟩ : ReconnState).reconnectAttempts +
      (runEvents ⟨0, false, false⟩
        (List.replicate 11 MqttEvent.closeEv)).2.length ≤
      maxReconnectAttempts :=
  (reconnect_attempts_bounded ⟨0, false, false⟩).1
    (List.replicate 11 MqttEvent.closeEv) (by decide) (by decide)

/-- C9 evaluated at the failing input (an upstream that never
responds): the `DataManager.js` SAP and REST fetches never settle — the
configured timeout is passed as an option the standard fetch API does
not have, so nothing aborts the request and no timeout error is ever
raised — while the `DataManager copy.js` variants abort and fail with
the distinct timeout error, which differs from the generic fetch
failure raised for an HTTP error status. -/
theorem fetch_timeout_divergence_eval :
    sapFetchMain 30000 ⟨none, true, "", ""⟩ = none ∧
    restFetchMain 15000 ⟨none, true, "", ""⟩ = none ∧
    sapFetchWithAbort 30000 ⟨none, true, "", ""⟩ =
      FetchOutcome.err "SAP API timeout after 30000ms" ∧
    restFetchWithAbort 15000 ⟨none, true, "", ""⟩ =
      FetchOutcome.err "REST API timeout after 15000ms" ∧
    sapFetchWithAbort 30000 ⟨some 10, false, "500 Internal Server Error", ""⟩ =
      FetchOutcome.err "SAP API error: 500 Internal Server Error" ∧
    FetchOutcome.err "SAP API timeout after 30000ms" ≠
      FetchOutcome.err "SAP API error: 500 Internal Server Error" :=
  ⟨rfl, rfl, rfl, rfl, rfl, by decide⟩

/-- C10: `getRealtimeOEEData` returns the empty list whenever the MQTT
client is not connected, no matter what the in-memory map holds; when
the source and its map are available and the client is connected, every
returned sample with a `receivedAt` stamp is less than 10 minutes old,
and samples lacking `receivedAt` are always kept. -/
theorem realtime_oee_freshness (now : Int) (avail conn : Bool)
    (data : List (String × StoredSample)) :
    getRealtimeOEEData now avail false data = [] ∧
    (∀ item ∈ getRealtimeOEEData now avail conn data,
      ∀ r : Int, item.receivedAt = some r → now - r < realtimeFreshnessMs) ∧
    (∀ item ∈ oeeFetchData data, item.receivedAt = none →
      item ∈ getRealtimeOEEData now true true data) := by
  refine ⟨by simp [getRealtimeOEEData], ?_, ?_⟩
  · intro item hitem r hr
    unfold getRealtimeOEEData at hitem
    by_cases hb : avail && conn
    · rw [if_pos hb] at hitem
      have hkeep := (List.mem_filter.mp hitem).2
      rw [hr] at hkeep
      simpa using hkeep
    · rw [if_neg hb] at hitem
      cases hitem
  · intro item hitem hnone
    unfold getRealtimeOEEData
    simp only [Bool.and_self, if_true, if_pos]
    exact List.mem_filter.mpr ⟨hitem, by rw [hnone]⟩

/-- Witness for C10: a sample received 100 ms ago is returned and its
age is below the 10-minute window. -/
theorem realtime_oee_freshness_witness :
    (200 : Int) - 100 < realtimeFreshnessMs :=
  (realtime_oee_freshness 200 true true
      [("LINE-01", ⟨⟨"LINE-01", true, some 50⟩, some 100, 0⟩)]).2.1
    ⟨⟨"LINE-01", true, some 50⟩, some 100, 0⟩ (by decide) 100 rfl
